import Mathlib

/-!
Verification development for the AIS target prioritizer calculation core
(`shared/constants.mjs` and `web/assets/scripts/ais-utils.mjs`).

Modelling conventions:
* JavaScript numbers carrying raw reported data and configuration are
  modelled as exact rationals (`ℚ`); quantities produced by trigonometric
  formulas (planar projection, haversine range, rhumb-line bearing, CPA
  distance) live in `ℝ`.
* A JavaScript field that may be `undefined`/`null` is an `Option`.
* `Math.round` is Mathlib's `round` (both are floor of `x + 1/2`).
* Display-string fields (`cpaFormatted`, …) and the MID country lookup of
  the source are not modelled; no claim mentions them.
-/

namespace AisPrioritizer

/-! Constants from `shared/constants.mjs`. -/

def METERS_PER_NM : ℚ := 1852

def KNOTS_PER_M_PER_S : ℚ := 1.94384

def TARGET_MAX_AGE : ℚ := 30 * 60

def LOST_TARGET_WARNING_AGE : ℚ := 10 * 60

def TCPA_MAX_SECONDS : ℚ := 3 * 3600

namespace PRIORITY_ORDER

def DANGER : ℚ := 10000

def WARNING : ℚ := 20000

def CLOSING : ℚ := 30000

def DIVERGING : ℚ := 40000

def NO_RANGE : ℚ := 50000

end PRIORITY_ORDER

namespace PRIORITY_WEIGHTS

def HAS_TCPA_BONUS : ℚ := 1000

def TCPA_WEIGHT : ℚ := 1000

def CPA_WEIGHT : ℚ := 2000

def RANGE_WEIGHT_PER_NM : ℚ := 100

def RANGE_WEIGHT_MAX : ℚ := 5000

def ORDER_MIN : ℚ := -99999

def ORDER_MAX : ℚ := 99999

end PRIORITY_WEIGHTS

/-- Target record: one tracked AIS entity, keyed by its 9-digit MMSI.
Raw reported fields are written by `processDelta`; the remaining fields are
derived each tick by `updateSingleTargetDerivedData` and the functions it
calls. Fields default to `none`/`false`, matching a fresh JS object. -/
structure Target where
  mmsi : String := ""
  context : Option String := none
  name : Option String := none
  callsign : Option String := none
  imo : Option String := none
  latitude : Option ℚ := none
  longitude : Option ℚ := none
  sog : Option ℚ := none
  cog : Option ℚ := none
  hdg : Option ℚ := none
  rot : Option ℚ := none
  magvar : Option ℚ := none
  typeId : Option ℚ := none
  type : Option String := none
  status : Option String := none
  aisClass : Option String := none
  destination : Option String := none
  length : Option ℚ := none
  beam : Option ℚ := none
  draft : Option ℚ := none
  isOffPosition : Option ℚ := none
  isVirtual : Option ℚ := none
  needsRecalc : Bool := false
  lastSeenDate : Option ℚ := none
  x : Option ℝ := none
  y : Option ℝ := none
  vx : Option ℝ := none
  vy : Option ℝ := none
  range : Option ℤ := none
  bearing : Option ℤ := none
  cpa : Option ℤ := none
  tcpa : Option ℤ := none
  guardAlarm : Option Bool := none
  collisionAlarm : Option Bool := none
  collisionWarning : Option Bool := none
  sartAlarm : Option Bool := none
  mobAlarm : Option Bool := none
  epirbAlarm : Option Bool := none
  alarmState : Option String := none
  alarmType : Option String := none
  order : Option ℚ := none
  lastSeen : Option ℤ := none
  isLost : Bool := false
  isValid : Bool := false

/-- Thresholds of one `warning`/`danger` group of a collision profile:
cpa in nautical miles, tcpa in seconds, minimum speed in knots. -/
structure AlarmThresholds where
  cpa : ℚ
  tcpa : ℚ
  speed : ℚ

/-- Guard-zone thresholds: range in nautical miles, minimum speed in knots. -/
structure GuardThresholds where
  range : ℚ
  speed : ℚ

/-- A fully-formed named collision profile: all three threshold groups
present. Claim statements about resolved thresholds quantify over these. -/
structure Profile where
  warning : AlarmThresholds
  danger : AlarmThresholds
  guard : GuardThresholds

/-- A stored profile entry as the classifier actually sees it: any of the
three groups may be missing (JS `undefined`), in which case the source's
`collisionProfiles[current].guard.range` (resp. `.danger.cpa`,
`.warning.cpa`) throws a `TypeError`. A group that is present is modelled
with all its scalar members, since a missing scalar member only produces
NaN comparisons (which are false) and cannot throw. -/
structure ProfileEntry where
  warning : Option AlarmThresholds := none
  danger : Option AlarmThresholds := none
  guard : Option GuardThresholds := none

/-- The entry of a fully-formed profile. -/
def Profile.toEntry (p : Profile) : ProfileEntry :=
  { warning := some p.warning, danger := some p.danger, guard := some p.guard }

/-- Collision profile configuration: a set of named profile entries plus
the `current` selector. `collisionProfiles[collisionProfiles.current]` in
the source is `CollisionProfiles.lookup`; a `none` result models the JS
`undefined` whose member access throws a `TypeError`. -/
structure CollisionProfiles where
  current : String
  profiles : List (String × ProfileEntry)

/-- JS `String.prototype.startsWith`, modelled on the character list. -/
def strStartsWith (s pre : String) : Bool :=
  decide (List.take pre.data.length s.data = pre.data)

/-- First-match lookup of a named profile entry, the JS property access. -/
def lookupProfile : List (String × ProfileEntry) → String → Option ProfileEntry
  | [], _ => none
  | (k, p) :: rest, key => if k = key then some p else lookupProfile rest key

def CollisionProfiles.lookup (cp : CollisionProfiles) : Option ProfileEntry :=
  lookupProfile cp.profiles cp.current

/-- Value of the guard-alarm expression of `evaluateAlarms`, given that the
profile lookup succeeded and its guard group is present: range known and
below `guard.range` nautical miles, and the speed gate (zero means always)
passes. -/
def guardAlarmValue (t : Target) (g : GuardThresholds) : Bool :=
  match t.range with
  | none => false
  | some r =>
    decide ((r : ℚ) < g.range * METERS_PER_NM) &&
      (decide (g.speed = 0) ||
        match t.sog with
        | none => false
        | some s => decide (s > g.speed / KNOTS_PER_M_PER_S))

/-- Value of the collision alarm / collision warning expression of
`evaluateAlarms` for one threshold group, given a successful profile
lookup. -/
def cpaAlarmValue (t : Target) (th : AlarmThresholds) : Bool :=
  match t.cpa with
  | none => false
  | some c =>
    decide ((c : ℚ) < th.cpa * METERS_PER_NM) &&
      (match t.tcpa with
       | none => false
       | some v => decide (0 < v) && decide ((v : ℚ) < th.tcpa)) &&
      (decide (th.speed = 0) ||
        match t.sog with
        | none => false
        | some s => decide (s > th.speed / KNOTS_PER_M_PER_S))

/-- The guard-alarm right-hand side as evaluated by JS: when `range` is
null the `&&` chain short-circuits to `false` before touching the profile;
otherwise `collisionProfiles[current].guard.range` runs and throws both
when the lookup of `current` fails and when the entry exists but lacks its
`guard` group. -/
def guardAlarmExpr (t : Target) (cp : CollisionProfiles) : Except Unit Bool :=
  match t.range with
  | none => .ok false
  | some _ =>
    match cp.lookup with
    | none => .error ()
    | some e =>
      match e.guard with
      | none => .error ()
      | some g => .ok (guardAlarmValue t g)

/-- The collision alarm / warning right-hand side as evaluated by JS: when
`cpa` is null the chain short-circuits to `false` before touching the
profile; otherwise `collisionProfiles[current].danger.cpa` (resp.
`.warning.cpa`) runs and throws both when the lookup of `current` fails
and when the entry lacks the selected threshold group. -/
def cpaAlarmExpr (t : Target) (cp : CollisionProfiles)
    (sel : ProfileEntry → Option AlarmThresholds) : Except Unit Bool :=
  match t.cpa with
  | none => .ok false
  | some _ =>
    match cp.lookup with
    | none => .error ()
    | some e =>
      match sel e with
      | none => .error ()
      | some th => .ok (cpaAlarmValue t th)

/-- The order-modifier statements at the end of the classifier body: from
the base value, subtract the TCPA bonus and weight for a positive TCPA,
subtract the CPA weight for a positive CPA, add the capped range weight or
the no-range penalty, and clamp to the fixed bounds. -/
def orderChain (ord0 : ℚ) (tcpa cpa range : Option ℤ) : ℚ :=
  let ord1 : ℚ :=
    match tcpa with
    | some v =>
      if 0 < v then
        ord0 - PRIORITY_WEIGHTS.HAS_TCPA_BONUS -
          max 0 ((round (PRIORITY_WEIGHTS.TCPA_WEIGHT -
            PRIORITY_WEIGHTS.TCPA_WEIGHT * (v : ℚ) / 3600) : ℤ) : ℚ)
      else ord0
    | none => ord0
  let ord2 : ℚ :=
    match cpa with
    | some c =>
      if 0 < c then
        ord1 - max 0 ((round (PRIORITY_WEIGHTS.CPA_WEIGHT -
          PRIORITY_WEIGHTS.CPA_WEIGHT * (c : ℚ) / 5 / METERS_PER_NM) : ℤ) : ℚ)
      else ord1
    | none => ord1
  let ord3 : ℚ :=
    match range with
    | some r =>
      if 0 < r then
        ord2 + min PRIORITY_WEIGHTS.RANGE_WEIGHT_MAX
          ((round (PRIORITY_WEIGHTS.RANGE_WEIGHT_PER_NM * (r : ℚ) / METERS_PER_NM) : ℤ) : ℚ)
      else ord2
    | none => ord2
  let ord4 : ℚ :=
    match range with
    | none => ord3 + PRIORITY_ORDER.NO_RANGE
    | some _ => ord3
  max PRIORITY_WEIGHTS.ORDER_MIN (min PRIORITY_WEIGHTS.ORDER_MAX ord4)

/-- Remainder of the `evaluateAlarms` body after the three threshold
expressions have been assigned (they are read back from the record, a
missing value being falsy): identity alarms, composite state, base order,
alarm-type string, the three order adjustments, the no-range penalty and
the final clamp. None of these statements can throw. -/
def evaluateAlarmsRest (t : Target) : Target :=
  let ga := t.guardAlarm.getD false
  let ca := t.collisionAlarm.getD false
  let cw := t.collisionWarning.getD false
  let sart := strStartsWith t.mmsi "970"
  let mob := strStartsWith t.mmsi "972"
  let epirb := strStartsWith t.mmsi "974"
  let st : Option String :=
    if ga || ca || sart || mob || epirb then some "danger"
    else if cw then some "warning"
    else none
  let ord0 : ℚ :=
    if ga || ca || sart || mob || epirb then PRIORITY_ORDER.DANGER
    else if cw then PRIORITY_ORDER.WARNING
    else
      match t.tcpa with
      | some v => if 0 < v then PRIORITY_ORDER.CLOSING else PRIORITY_ORDER.DIVERGING
      | none => PRIORITY_ORDER.DIVERGING
  let alarms : List String :=
    (if ga then ["guard"] else []) ++
    (if ca || cw then ["cpa"] else []) ++
    (if sart then ["sart"] else []) ++
    (if mob then ["mob"] else []) ++
    (if epirb then ["epirb"] else [])
  let atype : Option String :=
    if alarms.length > 0 then some (String.intercalate "," alarms) else none
  { t with
    sartAlarm := some sart
    mobAlarm := some mob
    epirbAlarm := some epirb
    alarmState := st
    alarmType := atype
    order := some (orderChain ord0 t.tcpa t.cpa t.range) }

/-- The `try` block of `evaluateAlarms` as sequential mutation: each alarm
expression may throw (profile lookup failure); fields assigned before the
failing statement keep their new values, and the error carries the target
as mutated so far. -/
def evaluateAlarmsTry (t : Target) (cp : CollisionProfiles) : Except Target Target :=
  match guardAlarmExpr t cp with
  | .error _ => .error t
  | .ok ga =>
    let t1 := { t with guardAlarm := some ga }
    match cpaAlarmExpr t1 cp ProfileEntry.danger with
    | .error _ => .error t1
    | .ok ca =>
      let t2 := { t1 with collisionAlarm := some ca }
      match cpaAlarmExpr t2 cp ProfileEntry.warning with
      | .error _ => .error t2
      | .ok cw => .ok (evaluateAlarmsRest { t2 with collisionWarning := some cw })

/-- Per-target classifier `evaluateAlarms` of `ais-utils.mjs`. The whole
body is wrapped in `try { … } catch (err) { console.error(…) }`, so an
internal exception is swallowed and the target keeps whatever had been
assigned up to the failing statement. -/
def evaluateAlarms (t : Target) (cp : CollisionProfiles) : Target :=
  match evaluateAlarmsTry t cp with
  | .ok t' => t'
  | .error t' => t'

/-! Delta ingestion: `processDelta` of `ais-utils.mjs`. -/

/-- Value payload carried at a path of a SignalK delta. -/
inductive JVal where
  | num (q : ℚ)
  | str (s : String)
  | bool (b : Bool)
  | null
  | obj (fields : List (String × JVal))

/-- Member access as performed under JS optional chaining (`a?.b`, with
`a` already at hand): a nullish or primitive base yields `undefined`
(`none`), a missing key yields `undefined`. Plain member access, which
throws on a null base, is `JVal.getE`. -/
def JVal.get (v : JVal) (k : String) : Option JVal :=
  match v with
  | .obj fields => go fields
  | _ => none
where
  go : List (String × JVal) → Option JVal
    | [] => none
    | (k', v') :: rest => if k' = k then some v' else go rest

/-- Plain JS member access `v.k`: throws a `TypeError` on a null base, and
yields `undefined` for a missing key or a primitive base. -/
def JVal.getE (v : JVal) (k : String) : Except Unit (Option JVal) :=
  match v with
  | .null => .error ()
  | _ => .ok (v.get k)

/-- JS truthiness of a value. -/
def JVal.truthy : JVal → Bool
  | .num q => decide (q ≠ 0)
  | .str s => decide (s ≠ "")
  | .bool b => b
  | .null => false
  | .obj _ => true

def JVal.asNum : JVal → Option ℚ
  | .num q => some q
  | _ => none

def JVal.asStr : JVal → Option String
  | .str s => some s
  | _ => none

/-- Truthiness of a possibly-undefined value. -/
def optTruthy : Option JVal → Bool
  | some v => v.truthy
  | none => false

/-- One `(path, value)` pair of a delta update. -/
structure DeltaValue where
  path : String
  value : JVal

/-- One entry of `delta.updates`: a timestamp (epoch milliseconds; `none`
models a missing or unparsable timestamp, whose `Date` is NaN) and a
possibly-absent `values` list. -/
structure DeltaUpdate where
  timestamp : Option ℚ := none
  values : Option (List DeltaValue) := none

/-- A SignalK delta message, as far as `processDelta` inspects it. -/
structure Delta where
  context : Option String := none
  updates : Option (List DeltaUpdate) := none

/-- JS `String.prototype.replace(/imo/i, "")`: removes the first
case-insensitive occurrence of "imo". -/
def stripImoAux : List Char → List Char
  | c1 :: c2 :: c3 :: rest =>
    if c1.toLower = 'i' ∧ c2.toLower = 'm' ∧ c3.toLower = 'o' then rest
    else c1 :: stripImoAux (c2 :: c3 :: rest)
  | l => l

def stripImo (s : String) : String :=
  String.mk (stripImoAux s.data)

/-- The `switch (value.path)` of `processDelta`: merges one recognized
field into the target; unrecognized paths fall through unchanged. Member
access into the payload (`value.value.latitude`, `value.value.name`, …)
throws on a null payload, and `…registrations.imo.replace` throws on a
truthy non-string IMO; such a `TypeError` propagates (`Except.error`), and
no field of the case's statement has been assigned when it does. -/
def applyValue (ts : Option ℚ) (t : Target) (dv : DeltaValue) : Except Unit Target :=
  if dv.path = "" then do
    let namev ← dv.value.getE "name"
    if optTruthy namev then
      pure { t with name := namev.bind JVal.asStr }
    else do
      let comm ← dv.value.getE "communication"
      let cs := comm.bind (fun c => c.get "callsignVhf")
      if optTruthy cs then
        pure { t with callsign := cs.bind JVal.asStr }
      else do
        let regs ← dv.value.getE "registrations"
        let imov := regs.bind (fun r => r.get "imo")
        if optTruthy imov then
          match imov with
          | some (.str s) => pure { t with imo := some (stripImo s) }
          | _ => .error ()
        else pure t
  else if dv.path = "navigation.position" then do
    let latv ← dv.value.getE "latitude"
    let lonv ← dv.value.getE "longitude"
    pure { t with latitude := latv.bind JVal.asNum
                  longitude := lonv.bind JVal.asNum
                  lastSeenDate := ts
                  needsRecalc := true }
  else if dv.path = "navigation.courseOverGroundTrue" then
    pure { t with cog := dv.value.asNum, needsRecalc := true }
  else if dv.path = "navigation.speedOverGround" then
    pure { t with sog := dv.value.asNum, needsRecalc := true }
  else if dv.path = "navigation.magneticVariation" then
    pure { t with magvar := dv.value.asNum }
  else if dv.path = "navigation.headingTrue" then
    pure { t with hdg := dv.value.asNum }
  else if dv.path = "navigation.rateOfTurn" then
    pure { t with rot := dv.value.asNum }
  else if dv.path = "design.aisShipType" then do
    let idv ← dv.value.getE "id"
    let namev ← dv.value.getE "name"
    pure { t with typeId := idv.bind JVal.asNum, type := namev.bind JVal.asStr }
  else if dv.path = "navigation.state" then
    pure { t with status := dv.value.asStr }
  else if dv.path = "sensors.ais.class" then
    pure { t with aisClass := dv.value.asStr }
  else if dv.path = "navigation.destination.commonName" then
    pure { t with destination := dv.value.asStr }
  else if dv.path = "design.length" then do
    let ov ← dv.value.getE "overall"
    pure { t with length := ov.bind JVal.asNum }
  else if dv.path = "design.beam" then
    pure { t with beam := dv.value.asNum }
  else if dv.path = "design.draft" then do
    let cv ← dv.value.getE "current"
    pure { t with draft := cv.bind JVal.asNum }
  else if dv.path = "atonType" then do
    let idv ← dv.value.getE "id"
    let namev ← dv.value.getE "name"
    let t' := { t with typeId := idv.bind JVal.asNum, type := namev.bind JVal.asStr }
    if t'.status = none then pure { t' with status := some "default" } else pure t'
  else if dv.path = "offPosition" then
    pure { t with isOffPosition := some (if dv.value.truthy then 1 else 0) }
  else if dv.path = "virtual" then
    pure { t with isVirtual := some (if dv.value.truthy then 1 else 0) }
  else pure t

/-- The inner `for (const value of values)` loop: a thrown `TypeError`
aborts the loop; the error carries the target as mutated by the values
already merged. -/
def applyValues (ts : Option ℚ) : Target → List DeltaValue → Except Target Target
  | t, [] => .ok t
  | t, dv :: rest =>
    match applyValue ts t dv with
    | .error _ => .error t
    | .ok t' => applyValues ts t' rest

/-- One entry of `delta.updates`: skipped when it has no `values` list. -/
def applyUpdate (t : Target) (u : DeltaUpdate) : Except Target Target :=
  match u.values with
  | none => .ok t
  | some vs => applyValues u.timestamp t vs

/-- The outer `for (const update of updates)` loop. -/
def applyUpdates : Target → List DeltaUpdate → Except Target Target
  | t, [] => .ok t
  | t, u :: rest =>
    match applyUpdate t u with
    | .error t' => .error t'
    | .ok t' => applyUpdates t' rest

/-- JS `context.slice(-9)`: the last nine characters (the whole string when
shorter). -/
def sliceLast9 (s : String) : String :=
  String.mk (s.data.drop (s.data.length - 9))

/-- The regular expression test `/^[0-9]{9}$/.test(mmsi)`; a failing `!mmsi`
truthiness test is subsumed (the empty string has length 0). -/
def isNineDigits (s : String) : Bool :=
  decide (s.data.length = 9) && s.data.all Char.isDigit

/-- The target store: a JS `Map` keyed by MMSI, modelled as an association
list with first-match lookup and in-place replacement on `set`. -/
def TargetMap := List (String × Target)

def lookupTarget : List (String × Target) → String → Option Target
  | [], _ => none
  | (k, t) :: rest, key => if k = key then some t else lookupTarget rest key

def setTarget : List (String × Target) → String → Target → List (String × Target)
  | [], key, t => [(key, t)]
  | (k, t') :: rest, key, t =>
    if k = key then (key, t) :: rest else (k, t') :: setTarget rest key t

/-- The `processDelta(delta, targets)` entry point. On normal completion
(`Except.ok`) it returns the extracted MMSI (or `none` for a rejected
delta) together with the updated store; a `TypeError` thrown while merging
a recognized field propagates out of the function (`Except.error`,
carrying the store at the throw — partial mutations of an existing,
aliased target are visible, a fresh object is discarded). An existing
target is mutated in place (aliased by the map), so its new `context` is
visible even on the early `return mmsi` taken when the delta has no
`updates` field; a target created fresh on that path is never inserted,
because `targets.set` only runs after the update loop. -/
def processDelta (delta : Delta) (targets : List (String × Target)) :
    Except (List (String × Target)) (Option String × List (String × Target)) :=
  match delta.context with
  | none => .ok (none, targets)
  | some ctx =>
    if ctx = "" then .ok (none, targets)
    else
      let mmsi := sliceLast9 ctx
      if isNineDigits mmsi then
        match lookupTarget targets mmsi with
        | some t0 =>
          let t1 := { t0 with context := some ctx }
          match delta.updates with
          | none => .ok (some mmsi, setTarget targets mmsi t1)
          | some us =>
            match applyUpdates t1 us with
            | .error tErr => .error (setTarget targets mmsi tErr)
            | .ok t2 => .ok (some mmsi, setTarget targets mmsi t2)
        | none =>
          let t1 : Target :=
            { mmsi := mmsi, sog := some 0, cog := some 0, needsRecalc := true, context := some ctx }
          match delta.updates with
          | none => .ok (some mmsi, targets)
          | some us =>
            match applyUpdates t1 us with
            | .error _ => .error targets
            | .ok t2 => .ok (some mmsi, setTarget targets mmsi t2)
      else .ok (none, targets)

/-! Kinematics: planar projection, range, bearing, CPA/TCPA. The
trigonometric formulas are modelled over `ℝ`; a JS number is always a real
value here, so the `Number.isFinite` guards of the source hold identically
and NaN propagation does not arise. -/

noncomputable def toRadians (v : ℝ) : ℝ := v * Real.pi / 180

noncomputable def toDegrees (v : ℝ) : ℝ := v * 180 / Real.pi

/-- JS `Math.atan2(y, x)`: the argument of the point `(x, y)`, in
`(-π, π]`. -/
noncomputable def jsAtan2 (y x : ℝ) : ℝ := Complex.arg ⟨x, y⟩

/-- JS truncation toward zero, as used by the `%` operator. -/
noncomputable def jsTrunc (x : ℝ) : ℤ := if 0 ≤ x then ⌊x⌋ else ⌈x⌉

/-- JS remainder `a % b` (sign of the dividend). -/
noncomputable def jsMod (a b : ℝ) : ℝ := a - b * (jsTrunc (a / b) : ℝ)

/-- Two-dimensional dot product, `dot` of the source. -/
def dotVec (u v : ℝ × ℝ) : ℝ := u.1 * v.1 + u.2 * v.2

/-- Vector length, `norm` of the source. -/
noncomputable def normVec (v : ℝ × ℝ) : ℝ := Real.sqrt (dotVec v v)

/-- Euclidean distance, `dist` of the source. -/
noncomputable def distVec (u v : ℝ × ℝ) : ℝ := normVec (u.1 - v.1, u.2 - v.2)

/-- Haversine great-circle distance in meters,
`getDistanceFromLatLonInMeters` of the source. -/
noncomputable def getDistanceFromLatLonInMeters (lat1 lon1 lat2 lon2 : ℝ) : ℝ :=
  let R : ℝ := 6371000
  let dLat := toRadians (lat2 - lat1)
  let dLon := toRadians (lon2 - lon1)
  let a := Real.sin (dLat / 2) * Real.sin (dLat / 2) +
    Real.cos (toRadians lat1) * Real.cos (toRadians lat2) *
      Real.sin (dLon / 2) * Real.sin (dLon / 2)
  let c := 2 * jsAtan2 (Real.sqrt a) (Real.sqrt (1 - a))
  R * c

/-- Rhumb-line bearing in degrees, `getRhumbLineBearing` of the source:
`(toDegrees(atan2(diffLon, diffPhi)) + 360) % 360`. -/
noncomputable def getRhumbLineBearing (lat1 lon1 lat2 lon2 : ℝ) : ℝ :=
  let diffLon := toRadians (lon2 - lon1)
  let diffPhi := Real.log (Real.tan (toRadians lat2 / 2 + Real.pi / 4) /
    Real.tan (toRadians lat1 / 2 + Real.pi / 4))
  let diffLon' :=
    if |diffLon| > Real.pi then
      (if diffLon > 0 then -(Real.pi * 2 - diffLon) else Real.pi * 2 + diffLon)
    else diffLon
  jsMod (toDegrees (jsAtan2 diffLon' diffPhi) + 360) 360

/-- The `calculateRangeAndBearing(selfTarget, target)` step: when any of
the four raw coordinates is null both outputs are null; otherwise range is
the rounded haversine distance and bearing the rounded rhumb-line bearing,
with an exact 360 folded to 0. -/
noncomputable def calculateRangeAndBearing (selfT t : Target) : Target :=
  match selfT.latitude, selfT.longitude, t.latitude, t.longitude with
  | some slat, some slon, some tlat, some tlon =>
    let r := round (getDistanceFromLatLonInMeters (slat : ℝ) (slon : ℝ) (tlat : ℝ) (tlon : ℝ))
    let t1 := { t with range := some r }
    let b := round (getRhumbLineBearing (slat : ℝ) (slon : ℝ) (tlat : ℝ) (tlon : ℝ))
    { t1 with bearing := some (if b ≥ 360 then 0 else b) }
  | _, _, _, _ => { t with range := none, bearing := none }

/-- The `updateCpa(selfTarget, target)` step. Over the reals the source's
`!tcpa` test means `tcpa = 0` (NaN cannot arise: the divisor is at least
1e-8), and the final `Number.isFinite` guard is identically true, so it is
omitted. -/
noncomputable def updateCpa (selfT t : Target) : Target :=
  match selfT.x, selfT.y, selfT.vx, selfT.vy, t.x, t.y, t.vx, t.vy with
  | some sx, some sy, some svx, some svy, some tx, some ty, some tvx, some tvy =>
    let dv : ℝ × ℝ := (tvx - svx, tvy - svy)
    let dv2 := dotVec dv dv
    if dv2 < 0.00000001 then { t with cpa := none, tcpa := none }
    else
      let w0 : ℝ × ℝ := (tx - sx, ty - sy)
      let tcpa := -dotVec w0 dv / dv2
      if tcpa = 0 ∨ tcpa < 0 ∨ tcpa > (TCPA_MAX_SECONDS : ℝ) then
        { t with cpa := none, tcpa := none }
      else
        let p1 : ℝ × ℝ := (sx + tcpa * svx, sy + tcpa * svy)
        let p2 : ℝ × ℝ := (tx + tcpa * tvx, ty + tcpa * tvy)
        { t with cpa := some (round (distVec p1 p2)), tcpa := some (round tcpa) }
  | _, _, _, _, _, _, _, _ => { t with cpa := none, tcpa := none }

/-- The unconditional head of `updateSingleTargetDerivedData`: planar
projection `y = lat·111120`, `x = lon·111120·cos(clamped self latitude)`
and velocity components from speed and course, with null raw values
defaulting to zero and the self latitude clamped away from the poles. -/
noncomputable def projectTarget (t selfT : Target) : Target :=
  let lat := t.latitude.getD 0
  let lon := t.longitude.getD 0
  let sog := t.sog.getD 0
  let cog := t.cog.getD 0
  let selfLat := selfT.latitude.getD 0
  let clampedSelfLat := max (-89.9 : ℚ) (min 89.9 selfLat)
  { t with
    y := some ((lat : ℝ) * 111120)
    x := some ((lon : ℝ) * 111120 * Real.cos (toRadians (clampedSelfLat : ℝ)))
    vy := some ((sog : ℝ) * Real.cos (cog : ℝ))
    vx := some ((sog : ℝ) * Real.sin (cog : ℝ)) }

/-- The `updateSingleTargetDerivedData` pass for one target: planar
projection and velocity (null coordinates defaulting to zero), then — for a
non-self target — range/bearing, CPA/TCPA and alarm classification, then
age bookkeeping and validity. `now` is `Date.now()` in epoch milliseconds.
The formatted display strings and MID country fields of the source are not
modelled. -/
noncomputable def updateSingleTargetDerivedData (t selfT : Target) (cp : CollisionProfiles)
    (maxAge now : ℚ) : Target :=
  let t1 := projectTarget t selfT
  let t2 :=
    if t1.mmsi ≠ selfT.mmsi then
      evaluateAlarms (updateCpa selfT (calculateRangeAndBearing selfT t1)) cp
    else t1
  let lastSeen : Option ℤ := t2.lastSeenDate.map (fun d => max 0 (round ((now - d) / 1000)))
  let t3 := { t2 with
    lastSeen := lastSeen
    isLost :=
      match lastSeen with
      | some ls => decide ((ls : ℚ) > LOST_TARGET_WARNING_AGE)
      | none => false }
  let stale : Bool :=
    match t3.lastSeen with
    | some ls => decide ((ls : ℚ) > maxAge)
    | none => false
  if t3.latitude = none ∨ t3.longitude = none ∨ stale then
    { t3 with isValid := false }
  else
    { t3 with isValid := true }

/-- The per-tick recompute `updateDerivedData(targets, selfTarget,
collisionProfiles, TARGET_MAX_AGE)`. A thrown error is an `Except.error`
carrying the message together with the state of the (mutated-in-place)
store at the throw; success carries the updated self target and store. -/
noncomputable def updateDerivedData (targets : List (String × Target)) (selfOpt : Option Target)
    (cp : CollisionProfiles) (maxAge now : ℚ) :
    Except (String × List (String × Target)) (Target × List (String × Target)) :=
  match selfOpt with
  | none => .error ("No GPS position available (no data for our own vessel)", targets)
  | some selfT =>
    let newSelf := updateSingleTargetDerivedData selfT selfT cp maxAge now
    let m1 := targets.map (fun kt => if kt.1 = selfT.mmsi then (kt.1, newSelf) else kt)
    if !newSelf.isValid then .error ("No GPS position available (data is invalid)", m1)
    else
      .ok (newSelf, m1.map (fun kt =>
        if kt.1 = newSelf.mmsi then kt
        else (kt.1, updateSingleTargetDerivedData kt.2 newSelf cp maxAge now)))

/-- Defined following the specification text for the CPA computation
(claim C1): relative velocity `dv`, parallel-tracks cutoff at `1e-8`,
`tcpa = -dot(w0,dv)/dot(dv,dv)` discarded when non-positive or beyond the
3-hour horizon (the "non-finite" case being vacuous over the reals), else
both positions projected forward and CPA the rounded Euclidean distance,
TCPA rounded to the second. -/
noncomputable def cpaTcpaSpec (selfPos selfVel tgtPos tgtVel : ℝ × ℝ) : Option ℤ × Option ℤ :=
  let dv : ℝ × ℝ := (tgtVel.1 - selfVel.1, tgtVel.2 - selfVel.2)
  if dotVec dv dv < 1e-8 then (none, none)
  else
    let w0 : ℝ × ℝ := (tgtPos.1 - selfPos.1, tgtPos.2 - selfPos.2)
    let tcpa := -dotVec w0 dv / dotVec dv dv
    if tcpa ≤ 0 ∨ tcpa > 10800 then (none, none)
    else
      let p1 : ℝ × ℝ := (selfPos.1 + tcpa * selfVel.1, selfPos.2 + tcpa * selfVel.2)
      let p2 : ℝ × ℝ := (tgtPos.1 + tcpa * tgtVel.1, tgtPos.2 + tcpa * tgtVel.2)
      (some (round (distVec p1 p2)), some (round tcpa))

/-! Proof-layer decomposition of the priority order computed by
`evaluateAlarmsRest`: the selected base bucket plus three adjustments. -/

/-- TCPA-based order adjustment (bonus plus linear weight), as a single
signed summand. -/
def tcpaAdjust (tcpa : Option ℤ) : ℚ :=
  match tcpa with
  | some v =>
    if 0 < v then
      -(PRIORITY_WEIGHTS.HAS_TCPA_BONUS +
        max 0 ((round (PRIORITY_WEIGHTS.TCPA_WEIGHT -
          PRIORITY_WEIGHTS.TCPA_WEIGHT * (v : ℚ) / 3600) : ℤ) : ℚ))
    else 0
  | none => 0

/-- CPA-based order adjustment as a single signed summand. -/
def cpaAdjust (cpa : Option ℤ) : ℚ :=
  match cpa with
  | some c =>
    if 0 < c then
      -(max 0 ((round (PRIORITY_WEIGHTS.CPA_WEIGHT -
        PRIORITY_WEIGHTS.CPA_WEIGHT * (c : ℚ) / 5 / METERS_PER_NM) : ℤ) : ℚ))
    else 0
  | none => 0

/-- Range-based order adjustment (capped weight, or the no-range
penalty). -/
def rangeAdjust (range : Option ℤ) : ℚ :=
  match range with
  | some r =>
    if 0 < r then
      min PRIORITY_WEIGHTS.RANGE_WEIGHT_MAX
        ((round (PRIORITY_WEIGHTS.RANGE_WEIGHT_PER_NM * (r : ℚ) / METERS_PER_NM) : ℤ) : ℚ)
    else 0
  | none => PRIORITY_ORDER.NO_RANGE

/-- Base bucket of a target with no alarm and no warning: closing when
TCPA is known and positive, else diverging. -/
def closingBase (tcpa : Option ℤ) : ℚ :=
  match tcpa with
  | some v => if 0 < v then PRIORITY_ORDER.CLOSING else PRIORITY_ORDER.DIVERGING
  | none => PRIORITY_ORDER.DIVERGING

/-- The base priority bucket selected by `evaluateAlarmsRest`. -/
def restBase (t : Target) : ℚ :=
  if t.guardAlarm.getD false || t.collisionAlarm.getD false || strStartsWith t.mmsi "970" ||
      strStartsWith t.mmsi "972" || strStartsWith t.mmsi "974" then PRIORITY_ORDER.DANGER
  else if t.collisionWarning.getD false then PRIORITY_ORDER.WARNING
  else closingBase t.tcpa

/-! Helper lemmas. -/

theorem round_mono_of_le {α : Type} [LinearOrderedField α] [FloorRing α] {a b : α}
    (h : a ≤ b) : round a ≤ round b := by
  rw [round_eq, round_eq]
  exact Int.floor_mono (by linarith)

theorem guardAlarmExpr_ok {cp : CollisionProfiles} {p : Profile}
    (h : cp.lookup = some (Profile.toEntry p)) :
    ∀ t : Target, guardAlarmExpr t cp = .ok (guardAlarmValue t p.guard) := by
  intro t
  unfold guardAlarmExpr
  cases hr : t.range <;> simp [h, Profile.toEntry, guardAlarmValue, hr]

theorem cpaAlarmExprDanger_ok {cp : CollisionProfiles} {p : Profile}
    (h : cp.lookup = some (Profile.toEntry p)) :
    ∀ t : Target, cpaAlarmExpr t cp ProfileEntry.danger = .ok (cpaAlarmValue t p.danger) := by
  intro t
  unfold cpaAlarmExpr
  cases hc : t.cpa <;> simp [h, Profile.toEntry, cpaAlarmValue, hc]

theorem cpaAlarmExprWarning_ok {cp : CollisionProfiles} {p : Profile}
    (h : cp.lookup = some (Profile.toEntry p)) :
    ∀ t : Target, cpaAlarmExpr t cp ProfileEntry.warning = .ok (cpaAlarmValue t p.warning) := by
  intro t
  unfold cpaAlarmExpr
  cases hc : t.cpa <;> simp [h, Profile.toEntry, cpaAlarmValue, hc]

/-- With a successful lookup of a fully-formed profile nothing in the
classifier body throws, and `evaluateAlarms` is the pure computation: the
three threshold flags are assigned, then the remainder runs. -/
theorem evaluateAlarms_ok {cp : CollisionProfiles} {p : Profile} (t : Target)
    (h : cp.lookup = some (Profile.toEntry p)) :
    evaluateAlarms t cp = evaluateAlarmsRest
      { t with guardAlarm := some (guardAlarmValue t p.guard)
               collisionAlarm := some (cpaAlarmValue t p.danger)
               collisionWarning := some (cpaAlarmValue t p.warning) } := by
  unfold evaluateAlarms evaluateAlarmsTry
  simp only [guardAlarmExpr_ok h, cpaAlarmExprDanger_ok h, cpaAlarmExprWarning_ok h]
  rfl

/-- Removing an inactive clamp. -/
theorem clamp_id {x : ℚ} (h1 : -99999 ≤ x) (h2 : x ≤ 99999) :
    max (-99999 : ℚ) (min 99999 x) = x := by
  rw [min_eq_right h2, max_eq_right h1]

theorem tcpa_adj_le (v : ℤ) (hv : 0 < v) :
    ((round ((1000 : ℚ) - 1000 * (v : ℚ) / 3600) : ℤ) : ℚ) ≤ 1000 := by
  have hvq : (0 : ℚ) < (v : ℚ) := by exact_mod_cast hv
  have h : ((1000 : ℚ) - 1000 * (v : ℚ) / 3600) ≤ 1000 := by nlinarith
  have := round_mono_of_le h
  have h1000 : round (1000 : ℚ) = 1000 := by norm_num
  rw [h1000] at this
  exact_mod_cast this

theorem cpa_adj_le (c : ℤ) (hc : 0 < c) :
    ((round ((2000 : ℚ) - 2000 * (c : ℚ) / 5 / 1852) : ℤ) : ℚ) ≤ 2000 := by
  have hcq : (0 : ℚ) < (c : ℚ) := by exact_mod_cast hc
  have h : ((2000 : ℚ) - 2000 * (c : ℚ) / 5 / 1852) ≤ 2000 := by nlinarith
  have := round_mono_of_le h
  have h2000 : round (2000 : ℚ) = 2000 := by norm_num
  rw [h2000] at this
  exact_mod_cast this

theorem range_adj_nonneg (r : ℤ) (hr : 0 < r) :
    (0 : ℚ) ≤ ((round ((100 : ℚ) * (r : ℚ) / 1852) : ℤ) : ℚ) := by
  have hrq : (0 : ℚ) < (r : ℚ) := by exact_mod_cast hr
  have h : (0 : ℚ) ≤ (100 : ℚ) * (r : ℚ) / 1852 := by positivity
  have := round_mono_of_le h
  rw [round_zero] at this
  exact_mod_cast this

theorem evaluateAlarmsRest_guardAlarm (t : Target) :
    (evaluateAlarmsRest t).guardAlarm = t.guardAlarm := by
  simp [evaluateAlarmsRest]

theorem evaluateAlarmsRest_collisionAlarm (t : Target) :
    (evaluateAlarmsRest t).collisionAlarm = t.collisionAlarm := by
  simp [evaluateAlarmsRest]

theorem evaluateAlarmsRest_collisionWarning (t : Target) :
    (evaluateAlarmsRest t).collisionWarning = t.collisionWarning := by
  simp [evaluateAlarmsRest]

theorem evaluateAlarmsRest_sartAlarm (t : Target) :
    (evaluateAlarmsRest t).sartAlarm = some (strStartsWith t.mmsi "970") := by
  simp [evaluateAlarmsRest]

theorem evaluateAlarmsRest_mobAlarm (t : Target) :
    (evaluateAlarmsRest t).mobAlarm = some (strStartsWith t.mmsi "972") := by
  simp [evaluateAlarmsRest]

theorem evaluateAlarmsRest_epirbAlarm (t : Target) :
    (evaluateAlarmsRest t).epirbAlarm = some (strStartsWith t.mmsi "974") := by
  simp [evaluateAlarmsRest]

/-- The sequential order-modifier chain is the clamped sum of the base and
the three adjustments. -/
theorem orderChain_eq (b : ℚ) (tcpa cpa range : Option ℤ) :
    orderChain b tcpa cpa range = max PRIORITY_WEIGHTS.ORDER_MIN
      (min PRIORITY_WEIGHTS.ORDER_MAX
        (b + tcpaAdjust tcpa + cpaAdjust cpa + rangeAdjust range)) := by
  unfold orderChain tcpaAdjust cpaAdjust rangeAdjust
  rcases tcpa with _ | v <;> rcases cpa with _ | c <;> rcases range with _ | r <;>
    dsimp only <;> first
      | (split_ifs <;> (congr 2 <;> ring))
      | (congr 2 <;> ring)

/-- The order computed by the classifier tail is the clamped sum of the
base bucket and the three adjustments. -/
theorem evaluateAlarmsRest_order (t : Target) :
    (evaluateAlarmsRest t).order = some (max PRIORITY_WEIGHTS.ORDER_MIN
      (min PRIORITY_WEIGHTS.ORDER_MAX
        (restBase t + tcpaAdjust t.tcpa + cpaAdjust t.cpa + rangeAdjust t.range))) := by
  simp only [evaluateAlarmsRest, orderChain_eq, restBase, closingBase]

theorem closingBase_bounds (o : Option ℤ) : 30000 ≤ closingBase o ∧ closingBase o ≤ 40000 := by
  unfold closingBase
  rcases o with _ | v
  · norm_num [PRIORITY_ORDER.DIVERGING]
  · dsimp only
    split_ifs <;> norm_num [PRIORITY_ORDER.CLOSING, PRIORITY_ORDER.DIVERGING]

theorem tcpaAdjust_bounds (o : Option ℤ) : -2000 ≤ tcpaAdjust o ∧ tcpaAdjust o ≤ 0 := by
  unfold tcpaAdjust
  rcases o with _ | v
  · norm_num
  · simp only [PRIORITY_WEIGHTS.HAS_TCPA_BONUS, PRIORITY_WEIGHTS.TCPA_WEIGHT]
    split_ifs with hv
    · have h1 := tcpa_adj_le v hv
      have h2 : (0 : ℚ) ≤ max 0 ((round ((1000 : ℚ) - 1000 * (v : ℚ) / 3600) : ℤ) : ℚ) :=
        le_max_left _ _
      have h3 : max (0 : ℚ) ((round ((1000 : ℚ) - 1000 * (v : ℚ) / 3600) : ℤ) : ℚ) ≤ 1000 :=
        max_le (by norm_num) h1
      constructor <;> linarith
    · norm_num

theorem cpaAdjust_bounds (o : Option ℤ) : -2000 ≤ cpaAdjust o ∧ cpaAdjust o ≤ 0 := by
  unfold cpaAdjust
  rcases o with _ | c
  · norm_num
  · simp only [PRIORITY_WEIGHTS.CPA_WEIGHT, METERS_PER_NM]
    split_ifs with hc
    · have h1 := cpa_adj_le c hc
      have h2 : (0 : ℚ) ≤ max 0 ((round ((2000 : ℚ) - 2000 * (c : ℚ) / 5 / 1852) : ℤ) : ℚ) :=
        le_max_left _ _
      have h3 : max (0 : ℚ) ((round ((2000 : ℚ) - 2000 * (c : ℚ) / 5 / 1852) : ℤ) : ℚ) ≤ 2000 :=
        max_le (by norm_num) h1
      constructor <;> linarith
    · norm_num

theorem rangeAdjust_bounds (o : Option ℤ) : 0 ≤ rangeAdjust o ∧ rangeAdjust o ≤ 50000 := by
  unfold rangeAdjust
  rcases o with _ | r
  · norm_num [PRIORITY_ORDER.NO_RANGE]
  · simp only [PRIORITY_WEIGHTS.RANGE_WEIGHT_MAX, PRIORITY_WEIGHTS.RANGE_WEIGHT_PER_NM,
      METERS_PER_NM]
    split_ifs with hr
    · have h1 := range_adj_nonneg r hr
      constructor
      · exact le_min (by norm_num) h1
      · have := min_le_left (5000 : ℚ) ((round ((100 : ℚ) * (r : ℚ) / 1852) : ℤ) : ℚ)
        linarith
    · norm_num

/-! Claim theorems. -/

/-- C4: after classification runs on a target (the active profile resolves,
so the body completes), the stored priority order lies within the fixed
symmetric clamp bounds `-99999 ≤ order ≤ 99999`, for every combination of
range, cpa, tcpa and profile thresholds. -/
theorem order_within_clamp_bounds (t : Target) (cp : CollisionProfiles) (p : Profile)
    (h : cp.lookup = some (Profile.toEntry p)) :
    ∃ o : ℚ, (evaluateAlarms t cp).order = some o ∧ -99999 ≤ o ∧ o ≤ 99999 := by
  rw [evaluateAlarms_ok t h, evaluateAlarmsRest_order]
  simp only [PRIORITY_WEIGHTS.ORDER_MIN, PRIORITY_WEIGHTS.ORDER_MAX]
  exact ⟨_, rfl, le_max_left _ _, max_le (by norm_num) (min_le_left _ _)⟩

/-- Concrete profile and store inputs used by the C4 witness. -/
def c4profile : Profile :=
  { warning := { cpa := 2, tcpa := 600, speed := 0.5 }
    danger := { cpa := 1, tcpa := 300, speed := 0.5 }
    guard := { range := 1, speed := 0 } }

def c4cp : CollisionProfiles :=
  { current := "coastal", profiles := [("coastal", Profile.toEntry c4profile)] }

def c4target : Target := { mmsi := "123456789", range := some 100000000, cpa := some 1, tcpa := some 1 }

/-- C4 witness: a concrete extreme-range target under a concrete profile. -/
theorem order_within_clamp_bounds_witness :
    ∃ o : ℚ, (evaluateAlarms c4target c4cp).order = some o ∧ -99999 ≤ o ∧ o ≤ 99999 :=
  order_within_clamp_bounds c4target c4cp c4profile
    (by norm_num [c4cp, CollisionProfiles.lookup, lookupProfile])

/-- C5: under the active profile, the guard alarm is true iff range is
known and strictly below `guard.range` nautical miles converted to meters,
and either the guard minimum speed is exactly zero ("always") or the
speed-over-ground is known and strictly exceeds `guard.speed` converted
from knots to m/s. -/
theorem guard_alarm_iff (t : Target) (cp : CollisionProfiles) (p : Profile)
    (h : cp.lookup = some (Profile.toEntry p)) :
    (evaluateAlarms t cp).guardAlarm = some true ↔
      ∃ r, t.range = some r ∧ (r : ℚ) < p.guard.range * 1852 ∧
        (p.guard.speed = 0 ∨ ∃ s, t.sog = some s ∧ p.guard.speed / 1.94384 < s) := by
  rw [evaluateAlarms_ok t h]
  simp only [evaluateAlarmsRest]
  cases hr : t.range with
  | none => simp [guardAlarmValue, hr]
  | some r =>
    cases hs : t.sog <;>
      simp [guardAlarmValue, hr, hs, METERS_PER_NM, KNOTS_PER_M_PER_S, gt_iff_lt]

/-- Concrete profile and target used by the C5 witness. -/
def c5profile : Profile :=
  { warning := { cpa := 2, tcpa := 600, speed := 0.5 }
    danger := { cpa := 1, tcpa := 300, speed := 0.5 }
    guard := { range := 1, speed := 0 } }

def c5cp : CollisionProfiles :=
  { current := "harbor", profiles := [("harbor", Profile.toEntry c5profile)] }

def c5target : Target := { mmsi := "123456789", range := some 100 }

/-- C5 witness: a target inside a 1 NM guard zone with a zero speed gate. -/
theorem guard_alarm_iff_witness :
    (evaluateAlarms c5target c5cp).guardAlarm = some true :=
  (guard_alarm_iff c5target c5cp c5profile
      (by norm_num [c5cp, CollisionProfiles.lookup, lookupProfile])).mpr
    ⟨100, rfl, by norm_num [c5profile], Or.inl (by norm_num [c5profile])⟩

/-- C3: for two targets classified under the same resolved profile with
identical range, cpa, tcpa and speed-over-ground, if one comes out with an
alarm (guard, collision, SART, MOB or EPIRB — alarm state "danger") and the
other with neither an alarm nor a collision warning, then the alarmed
target's priority order is strictly smaller (more urgent). -/
theorem alarmed_order_lt_unalarmed
    (t1 t2 : Target) (cp : CollisionProfiles) (p : Profile)
    (h : cp.lookup = some (Profile.toEntry p))
    (hrange : t1.range = t2.range) (hcpa : t1.cpa = t2.cpa) (htcpa : t1.tcpa = t2.tcpa)
    (hsog : t1.sog = t2.sog)
    (halarm : (evaluateAlarms t1 cp).guardAlarm = some true ∨
              (evaluateAlarms t1 cp).collisionAlarm = some true ∨
              (evaluateAlarms t1 cp).sartAlarm = some true ∨
              (evaluateAlarms t1 cp).mobAlarm = some true ∨
              (evaluateAlarms t1 cp).epirbAlarm = some true)
    (hnone : (evaluateAlarms t2 cp).guardAlarm = some false ∧
             (evaluateAlarms t2 cp).collisionAlarm = some false ∧
             (evaluateAlarms t2 cp).sartAlarm = some false ∧
             (evaluateAlarms t2 cp).mobAlarm = some false ∧
             (evaluateAlarms t2 cp).epirbAlarm = some false ∧
             (evaluateAlarms t2 cp).collisionWarning = some false) :
    ∃ o1 o2 : ℚ, (evaluateAlarms t1 cp).order = some o1 ∧
      (evaluateAlarms t2 cp).order = some o2 ∧ o1 < o2 := by
  rw [evaluateAlarms_ok t1 h] at halarm
  rw [evaluateAlarms_ok t2 h] at hnone
  rw [evaluateAlarms_ok t1 h, evaluateAlarms_ok t2 h, evaluateAlarmsRest_order,
    evaluateAlarmsRest_order]
  simp only [evaluateAlarmsRest_guardAlarm, evaluateAlarmsRest_collisionAlarm,
    evaluateAlarmsRest_collisionWarning, evaluateAlarmsRest_sartAlarm,
    evaluateAlarmsRest_mobAlarm, evaluateAlarmsRest_epirbAlarm,
    Option.some.injEq] at halarm hnone
  obtain ⟨hg2, hca2, hs2, hm2, he2, hw2⟩ := hnone
  have hcond1 : (guardAlarmValue t1 p.guard || cpaAlarmValue t1 p.danger ||
      strStartsWith t1.mmsi "970" || strStartsWith t1.mmsi "972" ||
      strStartsWith t1.mmsi "974") = true := by
    rcases halarm with ha | ha | ha | ha | ha <;> simp [ha]
  refine ⟨_, _, rfl, rfl, ?_⟩
  simp only [restBase]
  simp only [Option.getD_some, hcond1, hg2, hca2, hs2, hm2, he2, hw2, if_true,
    Bool.or_false, Bool.false_or, if_false, Bool.false_eq_true]
  rw [htcpa, hcpa, hrange]
  have hT := tcpaAdjust_bounds t2.tcpa
  have hC := cpaAdjust_bounds t2.cpa
  have hR := rangeAdjust_bounds t2.range
  have hB2 := closingBase_bounds t2.tcpa
  simp only [PRIORITY_ORDER.DANGER, PRIORITY_WEIGHTS.ORDER_MIN, PRIORITY_WEIGHTS.ORDER_MAX]
  rw [clamp_id (by linarith) (by linarith), clamp_id (by linarith) (by linarith)]
  linarith

/-- Concrete inputs for the C3 witness: a SART target and a plain vessel
with identical kinematics, neither triggering a geometric alarm. -/
def c3profile : Profile :=
  { warning := { cpa := 0.1, tcpa := 100, speed := 0 }
    danger := { cpa := 0.05, tcpa := 50, speed := 0 }
    guard := { range := 0, speed := 0 } }

def c3cp : CollisionProfiles :=
  { current := "offshore", profiles := [("offshore", Profile.toEntry c3profile)] }

def c3sart : Target :=
  { mmsi := "970123456", range := some 5000, cpa := some 300, tcpa := some 200, sog := some 2 }

def c3plain : Target :=
  { mmsi := "230123456", range := some 5000, cpa := some 300, tcpa := some 200, sog := some 2 }

/-- C3 witness: the SART target sorts strictly ahead of the plain one. -/
theorem alarmed_order_lt_unalarmed_witness :
    ∃ o1 o2 : ℚ, (evaluateAlarms c3sart c3cp).order = some o1 ∧
      (evaluateAlarms c3plain c3cp).order = some o2 ∧ o1 < o2 := by
  have hl : c3cp.lookup = some (Profile.toEntry c3profile) := by
    norm_num [c3cp, CollisionProfiles.lookup, lookupProfile]
  refine alarmed_order_lt_unalarmed c3sart c3plain c3cp c3profile hl rfl rfl rfl rfl ?_ ?_
  · refine Or.inr (Or.inr (Or.inl ?_))
    rw [evaluateAlarms_ok c3sart hl, evaluateAlarmsRest_sartAlarm]
    norm_num [c3sart, strStartsWith]
  · rw [evaluateAlarms_ok c3plain hl]
    simp only [evaluateAlarmsRest_guardAlarm, evaluateAlarmsRest_collisionAlarm,
      evaluateAlarmsRest_collisionWarning, evaluateAlarmsRest_sartAlarm,
      evaluateAlarmsRest_mobAlarm, evaluateAlarmsRest_epirbAlarm]
    refine ⟨?_, ?_, ?_, ?_, ?_, ?_⟩ <;>
      first
        | decide
        | norm_num [c3plain, c3profile, guardAlarmValue, cpaAlarmValue,
            METERS_PER_NM, KNOTS_PER_M_PER_S]

/-- C7 (amended): the classifier never propagates an exception — its
result is the try-block's value, or, when the body threw (missing profile
entry, or an entry missing the threshold group a completed-or-failing
statement needs), the target as mutated so far. In the exception case the
collision-warning flag, the identity flags, the alarm state, the alarm
type and the order always keep their pre-call values, and the target is
exactly the pre-call target with zero, one (guard) or two (guard and
collision) threshold flags replaced by freshly computed booleans —
statements after the failing one never run, statements before it keep
their new values. -/
theorem evaluateAlarms_error_keeps_fields (t : Target) (cp : CollisionProfiles) (t' : Target)
    (h : evaluateAlarmsTry t cp = .error t') :
    evaluateAlarms t cp = t' ∧
    t'.collisionWarning = t.collisionWarning ∧
    t'.sartAlarm = t.sartAlarm ∧ t'.mobAlarm = t.mobAlarm ∧ t'.epirbAlarm = t.epirbAlarm ∧
    t'.alarmState = t.alarmState ∧ t'.alarmType = t.alarmType ∧ t'.order = t.order ∧
    (t' = t ∨
      (∃ b, t' = { t with guardAlarm := some b }) ∨
      (∃ b c, t' = { t with guardAlarm := some b, collisionAlarm := some c })) := by
  have he : evaluateAlarms t cp = t' := by unfold evaluateAlarms; rw [h]
  refine ⟨he, ?_⟩
  unfold evaluateAlarmsTry at h
  cases hg : guardAlarmExpr t cp with
  | error e =>
    rw [hg] at h
    simp only [Except.error.injEq] at h
    subst h
    exact ⟨rfl, rfl, rfl, rfl, rfl, rfl, rfl, Or.inl rfl⟩
  | ok ga =>
    rw [hg] at h
    simp only at h
    cases hc : cpaAlarmExpr { t with guardAlarm := some ga } cp ProfileEntry.danger with
    | error e =>
      rw [hc] at h
      simp only [Except.error.injEq] at h
      subst h
      exact ⟨rfl, rfl, rfl, rfl, rfl, rfl, rfl, Or.inr (Or.inl ⟨ga, rfl⟩)⟩
    | ok ca =>
      rw [hc] at h
      simp only at h
      cases hw : cpaAlarmExpr
          { t with guardAlarm := some ga, collisionAlarm := some ca } cp
          ProfileEntry.warning with
      | ok cw => rw [hw] at h; simp at h
      | error e =>
        rw [hw] at h
        simp only [Except.error.injEq] at h
        subst h
        exact ⟨rfl, rfl, rfl, rfl, rfl, rfl, rfl, Or.inr (Or.inr ⟨ga, ca, rfl⟩)⟩

/-- Concrete inputs for the C7 counterexample: a target whose guard flag is
currently raised, whose range is null but cpa non-null, under a profile set
whose `current` key is missing — the guard statement completes (setting the
flag to false) and the collision statement throws. -/
def c7target : Target :=
  { mmsi := "123456789", range := none, cpa := some 100, guardAlarm := some true,
    order := some 777 }

def c7profiles : CollisionProfiles := { current := "medium", profiles := [] }

/-- C7 counterexample: an internal exception occurs, yet the guard-alarm
field does not keep the value it had before the call. -/
theorem evaluateAlarms_partial_mutation_cex :
    evaluateAlarmsTry c7target c7profiles = .error { c7target with guardAlarm := some false } ∧
    c7target.guardAlarm = some true ∧
    (evaluateAlarms c7target c7profiles).guardAlarm = some false := by
  refine ⟨rfl, rfl, ?_⟩
  rfl

/-- Concrete inputs for the C7 witness: a malformed profile entry carrying
only its guard group. The guard statement completes and raises the flag to
true; the collision statement then throws on the missing danger group. -/
def c7btarget : Target :=
  { mmsi := "123456789", range := some 100, cpa := some 100, guardAlarm := some false,
    collisionAlarm := some false, order := some 777 }

def c7bprofiles : CollisionProfiles :=
  { current := "harbor",
    profiles := [("harbor", { guard := some { range := 1, speed := 0 } })] }

/-- C7 witness: the amended theorem applied at a concrete throwing input —
the guard flag holds its freshly computed value (true), the order its
pre-call value. -/
theorem evaluateAlarms_error_keeps_fields_witness :
    evaluateAlarms c7btarget c7bprofiles = { c7btarget with guardAlarm := some true } ∧
    ({ c7btarget with guardAlarm := some true } : Target).order = c7btarget.order := by
  have h : evaluateAlarmsTry c7btarget c7bprofiles =
      .error { c7btarget with guardAlarm := some true } := by
    norm_num [evaluateAlarmsTry, guardAlarmExpr, cpaAlarmExpr, CollisionProfiles.lookup,
      lookupProfile, c7btarget, c7bprofiles, guardAlarmValue, METERS_PER_NM]
  have hall := evaluateAlarms_error_keeps_fields c7btarget c7bprofiles
    { c7btarget with guardAlarm := some true } h
  exact ⟨hall.1, hall.2.2.2.2.2.2.2.1⟩

theorem lookupTarget_setTarget_self (m : List (String × Target)) (k : String) (t : Target) :
    lookupTarget (setTarget m k t) k = some t := by
  induction m with
  | nil => simp [setTarget, lookupTarget]
  | cons kt rest ih =>
    obtain ⟨k', t'⟩ := kt
    by_cases hk : k' = k <;> simp [setTarget, lookupTarget, hk, ih]

/-- C6 (amended): a delta whose context ends in nine ASCII digits yields
that id whenever processing completes without throwing (a recognized path
carrying a null object payload, or a truthy non-string IMO, makes the merge
loop throw a TypeError instead, storing no new entry); on normal completion
the store is guaranteed to contain an entry for the id when the delta
carries an `updates` list (possibly empty, or with zero recognized fields)
or the id already existed — a fresh id arriving in a delta with no
`updates` field is returned without being stored, because the early return
precedes `targets.set`. -/
theorem processDelta_returns_id (delta : Delta) (targets : List (String × Target)) (ctx : String)
    (res : Option String × List (String × Target))
    (hc : delta.context = some ctx) (hd : isNineDigits (sliceLast9 ctx) = true)
    (hok : processDelta delta targets = .ok res) :
    res.1 = some (sliceLast9 ctx) ∧
    ((delta.updates ≠ none ∨ lookupTarget targets (sliceLast9 ctx) ≠ none) →
      ∃ t, lookupTarget res.2 (sliceLast9 ctx) = some t) := by
  have hctx : ctx ≠ "" := by
    intro hnil
    subst hnil
    simp [sliceLast9, isNineDigits] at hd
  unfold processDelta at hok
  rcases hlk : lookupTarget targets (sliceLast9 ctx) with _ | t0 <;>
    rcases hup : delta.updates with _ | us <;>
      simp [hc, hctx, hd, hlk, hup] at hok
  · subst hok
    simp [hup, hlk]
  · split at hok
    · simp at hok
    · simp only [Except.ok.injEq] at hok
      subst hok
      simp [lookupTarget_setTarget_self]
  · subst hok
    simp [lookupTarget_setTarget_self]
  · split at hok
    · simp at hok
    · simp only [Except.ok.injEq] at hok
      subst hok
      simp [lookupTarget_setTarget_self]

/-- Concrete delta for the C6 counterexample: well-formed context, no
`updates` field, empty store. -/
def c6delta : Delta := { context := some "vessels.urn:mrn:imo:mmsi:123456789", updates := none }

/-- C6 counterexample: processing completes normally and returns the id,
but the store does not contain an entry for it. -/
theorem processDelta_missing_updates_cex :
    processDelta c6delta [] = .ok (some "123456789", ([] : List (String × Target))) ∧
    lookupTarget ([] : List (String × Target)) "123456789" = none := by
  constructor <;> rfl

/-- Concrete delta for the C6 witness: same context, empty `updates` list
(zero recognized fields), and the target object `processDelta` seeds for
it. -/
def c6delta2 : Delta :=
  { context := some "vessels.urn:mrn:imo:mmsi:123456789", updates := some [] }

def c6target : Target :=
  { mmsi := "123456789", sog := some 0, cog := some 0, needsRecalc := true,
    context := some "vessels.urn:mrn:imo:mmsi:123456789" }

/-- C6 witness: with an updates list present and no throwing payload, the
id is returned and the target exists afterwards. -/
theorem processDelta_returns_id_witness :
    ((some "123456789" : Option String),
        [("123456789", c6target)]).1 = some (sliceLast9 "vessels.urn:mrn:imo:mmsi:123456789") ∧
    ((c6delta2.updates ≠ none ∨
        lookupTarget ([] : List (String × Target))
          (sliceLast9 "vessels.urn:mrn:imo:mmsi:123456789") ≠ none) →
      ∃ t, lookupTarget [("123456789", c6target)]
        (sliceLast9 "vessels.urn:mrn:imo:mmsi:123456789") = some t) :=
  processDelta_returns_id c6delta2 [] "vessels.urn:mrn:imo:mmsi:123456789"
    (some "123456789", [("123456789", c6target)]) rfl (by decide) rfl

/-- C1: for planar positions and velocities that are all non-null, the CPA
computation of the source agrees exactly with the specified algorithm:
relative-velocity cutoff below 1e-8, `tcpa = -dot(w0,dv)/dot(dv,dv)`
discarded when zero, negative or beyond the 3-hour horizon (over the reals
the non-finite case is empty), otherwise both positions projected forward
by tcpa, cpa the rounded Euclidean distance and tcpa rounded to the
second. -/
theorem updateCpa_matches_spec (selfT t : Target) (sx sy svx svy tx ty tvx tvy : ℝ)
    (hsx : selfT.x = some sx) (hsy : selfT.y = some sy)
    (hsvx : selfT.vx = some svx) (hsvy : selfT.vy = some svy)
    (htx : t.x = some tx) (hty : t.y = some ty)
    (htvx : t.vx = some tvx) (htvy : t.vy = some tvy) :
    ((updateCpa selfT t).cpa, (updateCpa selfT t).tcpa) =
      cpaTcpaSpec (sx, sy) (svx, svy) (tx, ty) (tvx, tvy) := by
  unfold updateCpa cpaTcpaSpec
  simp only [hsx, hsy, hsvx, hsvy, htx, hty, htvx, htvy]
  have h00 : (0.00000001 : ℝ) = 1e-8 := by norm_num
  have hM : ((TCPA_MAX_SECONDS : ℚ) : ℝ) = 10800 := by norm_num [TCPA_MAX_SECONDS]
  rw [h00, hM]
  set tc := -dotVec (tx - sx, ty - sy) (tvx - svx, tvy - svy) /
      dotVec (tvx - svx, tvy - svy) (tvx - svx, tvy - svy) with htc
  by_cases h1 : dotVec (tvx - svx, tvy - svy) (tvx - svx, tvy - svy) < 1e-8
  · rw [if_pos h1, if_pos h1]
  · rw [if_neg h1, if_neg h1]
    by_cases h2 : tc ≤ 0 ∨ tc > 10800
    · have hcode : tc = 0 ∨ tc < 0 ∨ tc > 10800 := by
        rcases h2 with h2 | h2
        · rcases lt_or_eq_of_le h2 with h2' | h2'
          · exact Or.inr (Or.inl h2')
          · exact Or.inl h2'
        · exact Or.inr (Or.inr h2)
      rw [if_pos hcode, if_pos h2]
    · have hcode : ¬(tc = 0 ∨ tc < 0 ∨ tc > 10800) := by
        push_neg at h2
        rintro (hc | hc | hc)
        · exact h2.1.ne' hc
        · exact absurd hc (asymm h2.1)
        · exact absurd hc (not_lt_of_le h2.2)
      rw [if_neg hcode, if_neg h2]

/-- Concrete inputs for the C1 witness: a stationary observer and a target
1000 m due east closing at 1 m/s. -/
noncomputable def c1self : Target :=
  { mmsi := "000000001", x := some 0, y := some 0, vx := some 0, vy := some 0 }

noncomputable def c1tgt : Target :=
  { mmsi := "123456789", x := some 1000, y := some 0, vx := some (-1), vy := some 0 }

/-- C1 witness: the source computation and the specified algorithm agree at
the concrete input. -/
theorem updateCpa_matches_spec_witness :
    ((updateCpa c1self c1tgt).cpa, (updateCpa c1self c1tgt).tcpa) =
      cpaTcpaSpec (0, 0) (0, 0) (1000, 0) (-1, 0) :=
  updateCpa_matches_spec c1self c1tgt 0 0 0 0 1000 0 (-1) 0
    rfl rfl rfl rfl rfl rfl rfl rfl

/-! Field-preservation lemmas: which stages leave which fields alone. -/

theorem projectTarget_fields (t selfT : Target) :
    (projectTarget t selfT).latitude = t.latitude ∧
    (projectTarget t selfT).longitude = t.longitude ∧
    (projectTarget t selfT).lastSeenDate = t.lastSeenDate ∧
    (projectTarget t selfT).mmsi = t.mmsi := by
  unfold projectTarget
  exact ⟨rfl, rfl, rfl, rfl⟩

theorem calculateRangeAndBearing_fields (selfT t : Target) :
    (calculateRangeAndBearing selfT t).latitude = t.latitude ∧
    (calculateRangeAndBearing selfT t).longitude = t.longitude ∧
    (calculateRangeAndBearing selfT t).lastSeenDate = t.lastSeenDate ∧
    (calculateRangeAndBearing selfT t).mmsi = t.mmsi := by
  unfold calculateRangeAndBearing
  split <;> exact ⟨rfl, rfl, rfl, rfl⟩

theorem updateCpa_fields (selfT t : Target) :
    (updateCpa selfT t).range = t.range ∧
    (updateCpa selfT t).bearing = t.bearing ∧
    (updateCpa selfT t).latitude = t.latitude ∧
    (updateCpa selfT t).longitude = t.longitude ∧
    (updateCpa selfT t).lastSeenDate = t.lastSeenDate ∧
    (updateCpa selfT t).mmsi = t.mmsi := by
  unfold updateCpa
  split
  · dsimp only
    split_ifs <;> exact ⟨rfl, rfl, rfl, rfl, rfl, rfl⟩
  · exact ⟨rfl, rfl, rfl, rfl, rfl, rfl⟩

theorem evaluateAlarmsRest_fields (t : Target) :
    (evaluateAlarmsRest t).range = t.range ∧
    (evaluateAlarmsRest t).bearing = t.bearing ∧
    (evaluateAlarmsRest t).latitude = t.latitude ∧
    (evaluateAlarmsRest t).longitude = t.longitude ∧
    (evaluateAlarmsRest t).lastSeenDate = t.lastSeenDate ∧
    (evaluateAlarmsRest t).mmsi = t.mmsi := by
  unfold evaluateAlarmsRest
  exact ⟨rfl, rfl, rfl, rfl, rfl, rfl⟩

theorem evaluateAlarms_fields (t : Target) (cp : CollisionProfiles) :
    (evaluateAlarms t cp).range = t.range ∧
    (evaluateAlarms t cp).bearing = t.bearing ∧
    (evaluateAlarms t cp).latitude = t.latitude ∧
    (evaluateAlarms t cp).longitude = t.longitude ∧
    (evaluateAlarms t cp).lastSeenDate = t.lastSeenDate ∧
    (evaluateAlarms t cp).mmsi = t.mmsi := by
  unfold evaluateAlarms evaluateAlarmsTry
  cases hg : guardAlarmExpr t cp with
  | error e => exact ⟨rfl, rfl, rfl, rfl, rfl, rfl⟩
  | ok ga =>
    dsimp only
    cases hc : cpaAlarmExpr { t with guardAlarm := some ga } cp ProfileEntry.danger with
    | error e => exact ⟨rfl, rfl, rfl, rfl, rfl, rfl⟩
    | ok ca =>
      dsimp only
      cases hw : cpaAlarmExpr
          { t with guardAlarm := some ga, collisionAlarm := some ca } cp
          ProfileEntry.warning with
      | error e => exact ⟨rfl, rfl, rfl, rfl, rfl, rfl⟩
      | ok cw => exact evaluateAlarmsRest_fields _

/-- A target whose latitude or longitude is null is marked invalid by its
own derived-data update (the self target's update in particular). -/
theorem updateSingle_invalid_of_null_pos (t selfT : Target) (cp : CollisionProfiles)
    (maxAge now : ℚ) (h : t.latitude = none ∨ t.longitude = none) :
    (updateSingleTargetDerivedData t selfT cp maxAge now).isValid = false := by
  unfold updateSingleTargetDerivedData
  have hp := projectTarget_fields t selfT
  dsimp only
  split
  case isTrue hne =>
    have h2 := evaluateAlarms_fields
      (updateCpa selfT (calculateRangeAndBearing selfT (projectTarget t selfT))) cp
    have h3 := updateCpa_fields selfT (calculateRangeAndBearing selfT (projectTarget t selfT))
    have h4 := calculateRangeAndBearing_fields selfT (projectTarget t selfT)
    split
    · rfl
    case isFalse hcond =>
      exfalso
      apply hcond
      rcases h with h | h
      · exact Or.inl (by simp [h2.2.2.1, h3.2.2.1, h4.1, hp.1, h])
      · exact Or.inr (Or.inl (by simp [h2.2.2.2.1, h3.2.2.2.1, h4.2.1, hp.2.1, h]))
  case isFalse hne =>
    split
    · rfl
    case isFalse hcond =>
      exfalso
      apply hcond
      rcases h with h | h
      · exact Or.inl (by simp [hp.1, h])
      · exact Or.inr (Or.inl (by simp [hp.2.1, h]))

theorem lookupTarget_map_other (m : List (String × Target)) (key : String) (tnew : Target)
    (k : String) (hk : k ≠ key) :
    lookupTarget (m.map (fun kt => if kt.1 = key then (kt.1, tnew) else kt)) k =
      lookupTarget m k := by
  induction m with
  | nil => rfl
  | cons kt rest ih =>
    obtain ⟨k', t'⟩ := kt
    simp only [List.map_cons]
    by_cases h' : k' = key
    · rw [if_pos h']
      unfold lookupTarget
      rw [if_neg (by simpa [h'] using (Ne.symm hk)), if_neg (by simpa [h'] using (Ne.symm hk))]
      exact ih
    · rw [if_neg h']
      unfold lookupTarget
      by_cases h'' : k' = k
      · rw [if_pos h'', if_pos h'']
      · rw [if_neg h'', if_neg h'']
        exact ih

/-- C2: when the self target is absent, or its latitude or longitude is
null, the per-tick recompute raises the distinct no-fix error to the caller
(an `Except.error`, not swallowed), and every target other than the self
target is left exactly as it was — the recompute is aborted before any
other target is processed. -/
theorem updateDerivedData_no_fix (targets : List (String × Target)) (selfOpt : Option Target)
    (cp : CollisionProfiles) (maxAge now : ℚ)
    (h : selfOpt = none ∨ ∃ s, selfOpt = some s ∧ (s.latitude = none ∨ s.longitude = none)) :
    ∃ msg m, updateDerivedData targets selfOpt cp maxAge now = .error (msg, m) ∧
      (msg = "No GPS position available (no data for our own vessel)" ∨
        msg = "No GPS position available (data is invalid)") ∧
      ∀ k, (∀ s, selfOpt = some s → k ≠ s.mmsi) → lookupTarget m k = lookupTarget targets k := by
  rcases h with h | ⟨s, hs, hpos⟩
  · subst h
    exact ⟨_, targets, rfl, Or.inl rfl, fun k _ => rfl⟩
  · subst hs
    have hinv := updateSingle_invalid_of_null_pos s s cp maxAge now hpos
    refine ⟨"No GPS position available (data is invalid)",
      targets.map (fun kt =>
        if kt.1 = s.mmsi then (kt.1, updateSingleTargetDerivedData s s cp maxAge now) else kt),
      ?_, Or.inr rfl, ?_⟩
    · unfold updateDerivedData
      simp [hinv]
    · intro k hk
      exact lookupTarget_map_other targets s.mmsi _ k (hk s rfl)

/-- Concrete inputs for the C2 witness: a self target with a null latitude
and one other target in the store. -/
def c2self : Target := { mmsi := "000000001", latitude := none, longitude := some 24.9 }

def c2other : Target := { mmsi := "123456789", latitude := some 60.1, longitude := some 24.8 }

def c2cp : CollisionProfiles := { current := "anchor", profiles := [] }

/-- C2 witness: the no-fix condition at a concrete store. -/
theorem updateDerivedData_no_fix_witness :
    ∃ msg m, updateDerivedData [("000000001", c2self), ("123456789", c2other)] (some c2self)
        c2cp 1800 0 = .error (msg, m) ∧
      (msg = "No GPS position available (no data for our own vessel)" ∨
        msg = "No GPS position available (data is invalid)") ∧
      ∀ k, (∀ s, (some c2self : Option Target) = some s → k ≠ s.mmsi) →
        lookupTarget m k = lookupTarget [("000000001", c2self), ("123456789", c2other)] k :=
  updateDerivedData_no_fix [("000000001", c2self), ("123456789", c2other)] (some c2self)
    c2cp 1800 0 (Or.inr ⟨c2self, rfl, Or.inl rfl⟩)

/-- For a nonnegative dividend and positive divisor, the JS remainder lies
in `[0, b)`. -/
theorem jsMod_nonneg_lt {a b : ℝ} (ha : 0 ≤ a) (hb : 0 < b) :
    0 ≤ jsMod a b ∧ jsMod a b < b := by
  unfold jsMod jsTrunc
  have hq : 0 ≤ a / b := div_nonneg ha hb.le
  rw [if_pos hq]
  have h1 : ((⌊a / b⌋ : ℝ)) ≤ a / b := Int.floor_le _
  have h2 : a / b < (⌊a / b⌋ : ℝ) + 1 := Int.lt_floor_add_one _
  have hba : b * (a / b) = a := by field_simp
  constructor
  · have := mul_le_mul_of_nonneg_left h1 hb.le
    linarith
  · have := mul_lt_mul_of_pos_left h2 hb
    nlinarith

/-- The degrees value `toDegrees (atan2 …) + 360` is positive: the
argument of a point lies in `(-π, π]`. -/
theorem toDegrees_jsAtan2_add_360_pos (y x : ℝ) : 0 < toDegrees (jsAtan2 y x) + 360 := by
  unfold toDegrees jsAtan2
  have h1 : -Real.pi < Complex.arg ⟨x, y⟩ := Complex.neg_pi_lt_arg _
  have hpi := Real.pi_pos
  have h2 : -Real.pi * (180 / Real.pi) < Complex.arg ⟨x, y⟩ * (180 / Real.pi) := by
    apply mul_lt_mul_of_pos_right h1
    positivity
  have h3 : -Real.pi * (180 / Real.pi) = -180 := by
    field_simp
    ring
  have h4 : Complex.arg ⟨x, y⟩ * (180 / Real.pi) = Complex.arg ⟨x, y⟩ * 180 / Real.pi := by
    ring
  nlinarith

/-- The raw rhumb-line bearing is always in `[0, 360)`. -/
theorem getRhumbLineBearing_mem (lat1 lon1 lat2 lon2 : ℝ) :
    0 ≤ getRhumbLineBearing lat1 lon1 lat2 lon2 ∧
      getRhumbLineBearing lat1 lon1 lat2 lon2 < 360 := by
  unfold getRhumbLineBearing
  exact jsMod_nonneg_lt (le_of_lt (toDegrees_jsAtan2_add_360_pos _ _)) (by norm_num)

/-- C8: whenever both positions are known, the stored bearing is an integer
in `[0, 360)`: the rhumb-line bearing is normalized into `[0, 360)` and a
rounded value of exactly 360 is folded to 0, so 360 is never stored. -/
theorem bearing_in_range (selfT t : Target) (slat slon tlat tlon : ℚ)
    (hsla : selfT.latitude = some slat) (hslo : selfT.longitude = some slon)
    (htla : t.latitude = some tlat) (htlo : t.longitude = some tlon) :
    ∃ b : ℤ, (calculateRangeAndBearing selfT t).bearing = some b ∧ 0 ≤ b ∧ b < 360 := by
  unfold calculateRangeAndBearing
  simp only [hsla, hslo, htla, htlo]
  refine ⟨_, rfl, ?_, ?_⟩
  · have hg := getRhumbLineBearing_mem (slat : ℝ) (slon : ℝ) (tlat : ℝ) (tlon : ℝ)
    have h0 : (0 : ℤ) ≤ round (getRhumbLineBearing (slat : ℝ) (slon : ℝ) (tlat : ℝ) (tlon : ℝ)) := by
      have := round_mono_of_le hg.1
      rwa [round_zero] at this
    split_ifs <;> [norm_num; exact h0]
  · have hg := getRhumbLineBearing_mem (slat : ℝ) (slon : ℝ) (tlat : ℝ) (tlon : ℝ)
    have h360 : round (getRhumbLineBearing (slat : ℝ) (slon : ℝ) (tlat : ℝ) (tlon : ℝ)) ≤ 360 := by
      have := round_mono_of_le hg.2.le
      simpa using this
    split_ifs with hf
    · norm_num
    · omega

/-- Concrete positions for the C8 witness. -/
def c8self : Target := { mmsi := "000000001", latitude := some 39, longitude := some (-75) }

def c8tgt : Target := { mmsi := "123456789", latitude := some 39.01, longitude := some (-75) }

/-- C8 witness: the bearing stored for a concrete pair of positions is an
integer in `[0, 360)`. -/
theorem bearing_in_range_witness :
    ∃ b : ℤ, (calculateRangeAndBearing c8self c8tgt).bearing = some b ∧ 0 ≤ b ∧ b < 360 :=
  bearing_in_range c8self c8tgt 39 (-75) 39.01 (-75) rfl rfl rfl rfl

/-- For a non-self target the stored range and bearing are exactly those
produced by `calculateRangeAndBearing`; the later stages never touch
them. -/
theorem updateSingle_nonself_range_bearing (t selfT : Target) (cp : CollisionProfiles)
    (maxAge now : ℚ) (hm : t.mmsi ≠ selfT.mmsi) :
    (updateSingleTargetDerivedData t selfT cp maxAge now).range =
      (calculateRangeAndBearing selfT (projectTarget t selfT)).range ∧
    (updateSingleTargetDerivedData t selfT cp maxAge now).bearing =
      (calculateRangeAndBearing selfT (projectTarget t selfT)).bearing := by
  unfold updateSingleTargetDerivedData
  dsimp only
  split
  case isTrue h =>
    have hE := evaluateAlarms_fields
      (updateCpa selfT (calculateRangeAndBearing selfT (projectTarget t selfT))) cp
    have hU := updateCpa_fields selfT (calculateRangeAndBearing selfT (projectTarget t selfT))
    split
    · exact ⟨hE.1.trans hU.1, hE.2.1.trans hU.2.1⟩
    · exact ⟨hE.1.trans hU.1, hE.2.1.trans hU.2.1⟩
  case isFalse h =>
    exfalso
    apply hm
    have hmm := (projectTarget_fields t selfT).2.2.2
    rw [← hmm]
    exact not_not.mp h

/-- C9: for a non-self target, the stored range and bearing are non-null
exactly when the self and target latitude and longitude are all non-null;
zero is a legitimate coordinate (`some 0` is non-null), and a null
coordinate on either side forces both outputs to null. -/
theorem range_bearing_nonnull_iff (t selfT : Target) (cp : CollisionProfiles) (maxAge now : ℚ)
    (hm : t.mmsi ≠ selfT.mmsi) :
    ((updateSingleTargetDerivedData t selfT cp maxAge now).range ≠ none ∧
      (updateSingleTargetDerivedData t selfT cp maxAge now).bearing ≠ none) ↔
      (selfT.latitude ≠ none ∧ selfT.longitude ≠ none ∧
        t.latitude ≠ none ∧ t.longitude ≠ none) := by
  obtain ⟨hr, hb⟩ := updateSingle_nonself_range_bearing t selfT cp maxAge now hm
  rw [hr, hb]
  have hplat : (projectTarget t selfT).latitude = t.latitude := (projectTarget_fields t selfT).1
  have hplon : (projectTarget t selfT).longitude = t.longitude :=
    (projectTarget_fields t selfT).2.1
  unfold calculateRangeAndBearing
  rw [hplat, hplon]
  rcases hsla : selfT.latitude with _ | a <;> rcases hslo : selfT.longitude with _ | b <;>
    rcases htla : t.latitude with _ | c <;> rcases htlo : t.longitude with _ | d <;>
      simp

/-- Concrete inputs for the C9 witness: the target sits exactly on the
equator and prime meridian. -/
def c9self : Target := { mmsi := "000000001", latitude := some 60, longitude := some 25 }

def c9tgt : Target := { mmsi := "123456789", latitude := some 0, longitude := some 0 }

def c9cp : CollisionProfiles := { current := "anchor", profiles := [] }

/-- C9 witness: a target at latitude 0 / longitude 0 with a valid self fix
gets non-null range and bearing. -/
theorem range_bearing_nonnull_iff_witness :
    ((updateSingleTargetDerivedData c9tgt c9self c9cp 1800 0).range ≠ none ∧
      (updateSingleTargetDerivedData c9tgt c9self c9cp 1800 0).bearing ≠ none) ↔
      (c9self.latitude ≠ none ∧ c9self.longitude ≠ none ∧
        c9tgt.latitude ≠ none ∧ c9tgt.longitude ≠ none) :=
  range_bearing_nonnull_iff c9tgt c9self c9cp 1800 0 (by decide)

/-- C10: a target whose age (clamped to be nonnegative) exceeds the
configured maximum is marked invalid by the derived-data update even when
its latitude and longitude are both present. -/
theorem stale_target_invalid (t selfT : Target) (cp : CollisionProfiles)
    (maxAge now d la lo : ℚ)
    (hd : t.lastSeenDate = some d) (hla : t.latitude = some la) (hlo : t.longitude = some lo)
    (hstale : ((max 0 (round ((now - d) / 1000)) : ℤ) : ℚ) > maxAge) :
    (updateSingleTargetDerivedData t selfT cp maxAge now).isValid = false := by
  unfold updateSingleTargetDerivedData
  dsimp only
  push_cast at hstale
  split
  case isTrue h =>
    have hE := evaluateAlarms_fields
      (updateCpa selfT (calculateRangeAndBearing selfT (projectTarget t selfT))) cp
    have hU := updateCpa_fields selfT (calculateRangeAndBearing selfT (projectTarget t selfT))
    have hC := calculateRangeAndBearing_fields selfT (projectTarget t selfT)
    have hP := projectTarget_fields t selfT
    have hlsd : (evaluateAlarms
        (updateCpa selfT (calculateRangeAndBearing selfT (projectTarget t selfT)))
        cp).lastSeenDate = some d := by
      rw [hE.2.2.2.2.1, hU.2.2.2.2.1, hC.2.2.1, hP.2.2.1, hd]
    split
    · rfl
    case isFalse hcond =>
      exfalso
      apply hcond
      refine Or.inr (Or.inr ?_)
      simp [hlsd]
      exact lt_max_iff.mp hstale
  case isFalse h =>
    split
    · rfl
    case isFalse hcond =>
      exfalso
      apply hcond
      refine Or.inr (Or.inr ?_)
      simp [(projectTarget_fields t selfT).2.2.1, hd]
      exact lt_max_iff.mp hstale

/-- Concrete inputs for the C10 witness: a target last seen at epoch 0,
updated 10000 seconds later with a 1800-second maximum age. -/
def c10self : Target := { mmsi := "000000001", latitude := some 60.1, longitude := some 25.1 }

def c10tgt : Target :=
  { mmsi := "123456789", latitude := some 60, longitude := some 25, lastSeenDate := some 0 }

def c10cp : CollisionProfiles := { current := "anchor", profiles := [] }

/-- C10 witness: staleness alone invalidates a target with a present
position. -/
theorem stale_target_invalid_witness :
    (updateSingleTargetDerivedData c10tgt c10self c10cp 1800 10000000).isValid = false :=
  stale_target_invalid c10tgt c10self c10cp 1800 10000000 0 60 25 rfl rfl rfl (by norm_num)

end AisPrioritizer
